import Mathlib

/-!
Verification of the ProfitHive Prophet forecasting service
(src/backend/python/prophet_service.py) against its natural-language
specification.  The service is shallowly embedded: timestamps are modelled
as integer hours since an epoch (pd.Timestamp arithmetic), numeric values
as rationals, fallible steps as Except values, and the opaque Prophet
model capability as a function parameter.  The strftime format %Y-%m-%d
used when serialising forecast timestamps is modelled as the floor
division of the hour count by 24 (the calendar day number), which
preserves equality and ordering of the produced date strings.
-/

namespace ProphetService

/-- Raw field values as pandas sees them: a numeric value (directly numeric
or a parseable numeric string, already converted), or non-numeric text that
pd.to_numeric cannot parse. -/
inductive RawVal where
  | num (q : ℚ)
  | text
  deriving DecidableEq, Repr

/-- One record of the raw history payload.  A field is none when the key is
absent from the record.  The ds value is the parsed timestamp in hours
(records whose ds key is present are assumed parseable by pd.to_datetime;
an absent ds key becomes NaT, modelled as none). -/
structure RawRecord where
  ds : Option ℤ
  y : Option RawVal
  weather_score : Option RawVal
  transport_score : Option RawVal
  foot_traffic_score : Option RawVal
  deriving DecidableEq, Repr

/-- A prepared observation (one row of the dataframe returned by
_prepare_data).  y is none when the y cell is NaN (key absent from that
record while the column exists). -/
structure Obs where
  ds : Option ℤ
  y : Option ℚ
  weather_score : ℚ
  transport_score : ℚ
  foot_traffic_score : ℚ
  deriving DecidableEq, Repr

/-- Error taxonomy of the embedded service.  validationError models the
ValueError raised by _prepare_data and train_model, modelUnavailable the
ValueError raised in predict when no history is given, negativePeriods the
pandas date_range rejection of a negative periods argument, and
emptyDataframe the Prophet predict rejection of an empty future frame. -/
inductive PErr where
  | validationError
  | modelUnavailable
  | negativePeriods
  | emptyDataframe
  deriving DecidableEq, Repr

/-- pd.DataFrame built from a list of records has a column iff some record
carries the key; this tests presence of the ds column. -/
def hasDsCol (h : List RawRecord) : Bool :=
  h.any fun r => r.ds.isSome

/-- Presence of the y column (some record carries the y key). -/
def hasYCol (h : List RawRecord) : Bool :=
  h.any fun r => r.y.isSome

/-- Presence of a regressor column, for the given field accessor. -/
def colPresent (get : RawRecord → Option RawVal) (h : List RawRecord) : Bool :=
  h.any fun r => (get r).isSome

/-- pd.to_numeric without errors=coerce succeeds on a cell iff the cell is
numeric or NaN (absent key); it raises on non-numeric text. -/
def numericOrMissing : Option RawVal → Bool
  | some RawVal.text => false
  | _ => true

/-- np.clip(x, 0, 1). -/
def clip01 (q : ℚ) : ℚ := max 0 (min 1 q)

/-- One regressor cell after pd.to_numeric(errors=coerce).fillna(0.5) and
np.clip(-, 0, 1): an absent key is NaN hence 0.5, unparsable text is
coerced to NaN hence 0.5, a numeric value is clipped into the unit
interval. -/
def coerceReg (v : Option RawVal) : ℚ :=
  match v with
  | none => 1/2
  | some RawVal.text => 1/2
  | some (RawVal.num q) => clip01 q

/-- A regressor cell of the prepared frame: when the column is absent from
the whole frame it is filled with the neutral 0.5, otherwise the cell is
coerced, NaN-filled and clipped. -/
def regColumn (present : Bool) (v : Option RawVal) : ℚ :=
  if present then coerceReg v else 1/2

/-- Normalisation of one record into a prepared row, given which regressor
columns exist in the frame. -/
def normalizeRecord (wsCol tsCol fsCol : Bool) (r : RawRecord) : Obs :=
  { ds := r.ds
    y := match r.y with
      | some (RawVal.num q) => some q
      | _ => none
    weather_score := regColumn wsCol r.weather_score
    transport_score := regColumn tsCol r.transport_score
    foot_traffic_score := regColumn fsCol r.foot_traffic_score }

/-- df.drop_duplicates(subset=[ds]) with the pandas default keep=first:
the first row with each ds value survives, later rows with the same ds are
dropped.  Written structurally (keep the head, deduplicate the tail, drop
tail rows sharing the head ds), which produces the same keep-first
result. -/
def dedupByDs : List Obs → List Obs
  | [] => []
  | r :: rest => r :: (dedupByDs rest).filter fun o => o.ds ≠ r.ds

/-- Comparison used by sort_values(ds): NaT sorts last (the pandas default
na_position=last). -/
def dsLe : Option ℤ → Option ℤ → Bool
  | none, none => true
  | none, some _ => false
  | some _, none => true
  | some a, some b => decide (a ≤ b)

/-- df.sort_values(ds): sort the prepared rows ascending by ds. -/
def sortByDs (l : List Obs) : List Obs :=
  l.insertionSort fun a b => dsLe a.ds b.ds = true

/-- ProphetService._prepare_data: raise ValueError when the ds or y column
is absent from the frame, raise when some y cell is non-numeric text,
otherwise normalise the regressor columns, drop duplicate ds rows keeping
the first occurrence, and sort ascending by ds. -/
def prepareData (h : List RawRecord) : Except PErr (List Obs) :=
  if ¬ (hasDsCol h = true ∧ hasYCol h = true) then
    Except.error PErr.validationError
  else if ¬ (h.all fun r => numericOrMissing r.y) = true then
    Except.error PErr.validationError
  else
    Except.ok (sortByDs (dedupByDs (h.map
      (normalizeRecord (colPresent (fun r => r.weather_score) h)
        (colPresent (fun r => r.transport_score) h)
        (colPresent (fun r => r.foot_traffic_score) h)))))

/-- One row of the future dataframe handed to the Prophet model: a
timestamp plus the three extrapolated regressor values. -/
structure FutureRow where
  ds : ℤ
  weather_score : ℚ
  transport_score : ℚ
  foot_traffic_score : ℚ
  deriving DecidableEq, Repr

/-- One serialised forecast point of the response.  ds is the calendar day
number produced by strftime %Y-%m-%d (floor of the hour count by 24). -/
structure ForecastPoint where
  ds : ℤ
  yhat : ℚ
  yhat_lower : ℚ
  yhat_upper : ℚ
  deriving DecidableEq, Repr

/-- The parts of the predict response the claims speak about: the
serialised predictions plus the model_meta fields describing the request
(the trained_on timestamp and the method tag carry no verifiable
content beyond the clock value passed in). -/
structure PredictResponse where
  predictions : List ForecastPoint
  predict_periods : ℤ
  frequency : String
  deriving DecidableEq, Repr

/-- A predict request after JSON decoding: the raw history, the requested
number of periods and the frequency string (retailer id only selects the
persisted slot and is abstracted into the modelExists flag). -/
structure PredictRequest where
  history : List RawRecord
  predict_periods : ℤ
  freq : String
  deriving DecidableEq, Repr

/-- Outcome of the load-or-train step of predict (lines 210 to 219):
either the ValueError for a missing model and history, a retrain with the
supplied history, or silent use of the loaded persisted model. -/
inductive ModelStep where
  | unavailable
  | retrained
  | usedLoaded
  deriving DecidableEq, Repr

/-- The decision logic of lines 213 to 219 of predict, transcribed from
the condition `if not model_loaded or not history_data` followed by
`if not history_data: raise`. -/
def modelAcquisition (model_loaded history_nonempty : Bool) : ModelStep :=
  if !model_loaded || !history_nonempty then
    if !history_nonempty then ModelStep.unavailable else ModelStep.retrained
  else
    ModelStep.usedLoaded

/-- The data-dependent part of train_model as invoked from predict:
prepare the history and reject fewer than 10 rows; the Prophet fit and the
joblib save are abstracted (the fitted model is the capability parameter
of predictE). -/
def trainCheck (h : List RawRecord) : Except PErr Unit :=
  match prepareData h with
  | Except.error e => Except.error e
  | Except.ok df =>
    if df.length < 10 then Except.error PErr.validationError else Except.ok ()

/-- df_history[ds].max(): the greatest ds value, skipping NaT cells
(pandas max skipna).  The default 0 is only reached when every cell is
NaT, a case excluded by the hypotheses of the theorems below. -/
def maxDs (df : List Obs) : ℤ :=
  ((df.filterMap fun o => o.ds).max?).getD 0

/-- The step, in hours, of the frequency dispatch in lines 233 to 250:
one day for freq D, one hour for freq H, and the daily fallback for any
other string. -/
def freqStep (freq : String) : ℤ :=
  if freq = "D" then 24 else if freq = "H" then 1 else 24

/-- pd.date_range(start, periods, freq): rejects a negative periods count
with a ValueError, otherwise yields periods evenly spaced timestamps
beginning at start. -/
def dateRange (start step : ℤ) (periods : ℤ) : Except PErr (List ℤ) :=
  if periods < 0 then Except.error PErr.negativePeriods
  else Except.ok ((List.range periods.toNat).map fun (i : ℕ) => start + step * (i : ℤ))

/-- Series.tail(7): the last min(7, length) entries of a column. -/
def lastSeven (l : List ℚ) : List ℚ :=
  l.drop (l.length - 7)

/-- Column mean, as pandas mean over a NaN-free column. -/
def dmean (l : List ℚ) : ℚ :=
  l.sum / (l.length : ℚ)

/-- Regressor extrapolation for the future horizon (lines 257 to 264):
with a prepared history, the mean of the last seven values of the column;
with no history, the neutral 0.5.  The regressor columns always exist in a
prepared frame, so the column-membership test of line 258 reduces to
whether a history is present. -/
def extrapolateRegressor (df_history : Option (List Obs)) (get : Obs → ℚ) : ℚ :=
  match df_history with
  | some df => dmean (lastSeven (df.map get))
  | none => 1/2

/-- The future dataframe of lines 253 to 264: one row per future
timestamp, each regressor column set to its single extrapolated value. -/
def makeFutureFrame (dates : List ℤ) (df_history : Option (List Obs)) :
    List FutureRow :=
  dates.map fun t =>
    { ds := t
      weather_score := extrapolateRegressor df_history fun o => o.weather_score
      transport_score := extrapolateRegressor df_history fun o => o.transport_score
      foot_traffic_score := extrapolateRegressor df_history fun o => o.foot_traffic_score }

/-- Prophet Model.predict on the future frame: the library rejects an
empty input frame (ValueError, dataframe has no rows), and otherwise
produces yhat, yhat_lower and yhat_upper for every row via the opaque
fitted capability M. -/
def prophetPredict (M : FutureRow → ℚ × ℚ × ℚ) (future : List FutureRow) :
    Except PErr (List (FutureRow × (ℚ × ℚ × ℚ))) :=
  if future.isEmpty then Except.error PErr.emptyDataframe
  else Except.ok (future.map fun r => (r, M r))

/-- strftime %Y-%m-%d on a timestamp in hours: the calendar day number. -/
def dayOf (t : ℤ) : ℤ :=
  t.fdiv 24

/-- ProphetService.predict, parameterised by the fitted model capability
M, whether a persisted model exists for the entity (the outcome of
load_model), and the current clock in hours (datetime.now).  Follows
lines 200 to 297: load or train, re-prepare the history, pick the anchor
date, build the future timeline and frame, run the model, and serialise
the forecast points with day-formatted ds values. -/
def predictE (M : FutureRow → ℚ × ℚ × ℚ) (modelExists : Bool) (now : ℤ)
    (req : PredictRequest) : Except PErr PredictResponse := do
  (match modelAcquisition modelExists (!req.history.isEmpty) with
   | ModelStep.unavailable => Except.error PErr.modelUnavailable
   | ModelStep.retrained => trainCheck req.history
   | ModelStep.usedLoaded => Except.ok ())
  let df_history : Option (List Obs) ←
    (if req.history.isEmpty then Except.ok none
     else
       match prepareData req.history with
       | Except.error e => Except.error e
       | Except.ok df => Except.ok (some df))
  let last_date : ℤ :=
    match df_history with
    | some df => maxDs df
    | none => now - 24
  let step : ℤ := freqStep req.freq
  let future_dates ← dateRange (last_date + step) step req.predict_periods
  let future_df := makeFutureFrame future_dates df_history
  let forecast ← prophetPredict M future_df
  let predictions := forecast.map fun rc =>
    { ds := dayOf rc.1.ds
      yhat := rc.2.1
      yhat_lower := rc.2.2.1
      yhat_upper := rc.2.2.2 : ForecastPoint }
  pure { predictions := predictions
         predict_periods := req.predict_periods
         frequency := req.freq }

/-- A row of the Prophet forecast frame as read by _calculate_confidence. -/
structure ForecastRow where
  yhat : ℚ
  yhat_lower : ℚ
  yhat_upper : ℚ
  deriving DecidableEq, Repr

/-- Series.diff of a yhat column, with the leading NaN dropped (the
subsequent abs().sum() skips NaN, so summing the remaining consecutive
differences is exact). -/
def diffs : List ℚ → List ℚ
  | a :: b :: rest => (b - a) :: diffs (b :: rest)
  | _ => []

/-- Sample variance with the pandas default ddof=1, used to characterise
the Series.std value: std is the unique nonnegative square root of this
quantity. -/
def sampleVar (l : List ℚ) : ℚ :=
  (l.map fun x => (x - dmean l) ^ 2).sum / ((l.length : ℚ) - 1)

/-- max(0.65, min(0.92, x)), the clamp applied twice in
_calculate_confidence. -/
def clamp6592 (x : ℚ) : ℚ :=
  max (65/100) (min (92/100) x)

/-- The normal path of _calculate_confidence (lines 305 to 331) over
exact rationals.  stdev stands for forecast[yhat].std(), passed as an
argument because an exact square root leaves the rationals; every theorem
that fixes its value constrains it by stdev * stdev = sampleVar yhat with
stdev nonnegative.  r is the unseeded random.random() draw in [0, 1). -/
def calcConfidence (f : List ForecastRow) (stdev r : ℚ) : ℚ :=
  let yhat := f.map fun p => p.yhat
  let widths := f.map fun p => (p.yhat_upper - p.yhat_lower) / |p.yhat|
  let avg_width := dmean widths
  let base_confidence := 1 - avg_width / 3
  let prediction_variance := stdev / dmean yhat
  let variability_penalty := min (15/100) (prediction_variance * (5/10))
  let trend_changes := ((diffs yhat).map fun d => |d|).sum / (f.length : ℚ)
  let trend_penalty := min (1/10) (trend_changes / dmean yhat * (3/10))
  let confidence := clamp6592 (base_confidence - variability_penalty - trend_penalty)
  clamp6592 (confidence + (r - 5/10) * (4/100))

/-- The except branch of _calculate_confidence (line 335): a fresh
unseeded draw r in [0, 1) mapped into the band 0.70 to 0.80. -/
def fallbackConfidence (r : ℚ) : ℚ :=
  75/100 + (r - 5/10) * (1/10)

/-- A history row with the given timestamp, y = 100 and all three
regressors present at 0.5, used as concrete test data. -/
def histRow (d : ℤ) : RawRecord :=
  { ds := some d
    y := some (RawVal.num 100)
    weather_score := some (RawVal.num (1/2))
    transport_score := some (RawVal.num (1/2))
    foot_traffic_score := some (RawVal.num (1/2)) }

/-- Ten valid daily history rows (days 0 through 9, in hours). -/
def hist10 : List RawRecord :=
  [histRow 0, histRow 24, histRow 48, histRow 72, histRow 96, histRow 120,
   histRow 144, histRow 168, histRow 192, histRow 216]

/-- A concrete fitted-model capability: every future row forecasts
yhat = 100 with the interval 90 to 110. -/
def M0 : FutureRow → ℚ × ℚ × ℚ :=
  fun _ => (100, 90, 110)

/-- The future row predictE builds for the timestamp t when a prepared
history df is available (abbreviation used by the horizon theorem,
matching the rows makeFutureFrame produces). -/
def futureRowFor (df : List Obs) (t : ℤ) : FutureRow :=
  { ds := t
    weather_score := extrapolateRegressor (some df) fun o => o.weather_score
    transport_score := extrapolateRegressor (some df) fun o => o.transport_score
    foot_traffic_score := extrapolateRegressor (some df) fun o => o.foot_traffic_score }

/-- The prepared row corresponding to histRow (the regressor cells are
the clip of the raw 0.5, which evaluates to 0.5). -/
def obsRow (d : ℤ) : Obs :=
  { ds := some d
    y := some 100
    weather_score := clip01 (1/2)
    transport_score := clip01 (1/2)
    foot_traffic_score := clip01 (1/2) }

/-- The prepared series of hist10. -/
def prepared10 : List Obs :=
  [obsRow 0, obsRow 24, obsRow 48, obsRow 72, obsRow 96, obsRow 120,
   obsRow 144, obsRow 168, obsRow 192, obsRow 216]

end ProphetService

open ProphetService

/-- Claim C1: the claim says every predict request with non-empty history
retrains even when a persisted model was loaded.  The code takes the other
branch: with model_loaded true and non-empty history, the condition
`if not model_loaded or not history_data` is false, train_model is never
called, and the stale persisted model is used.  This contradicts the
adjacent code comment (train new model if no model exists or new history
provided), so the code, not the claim, is at fault. -/
theorem loadedModel_nonemptyHistory_skips_retrain :
    modelAcquisition true true = ModelStep.usedLoaded := rfl

/-- Claim C2: the claim says predict with empty history succeeds whenever
a persisted model exists, anchoring at yesterday.  In the code the
condition `not model_loaded or not history_data` is true for an empty
history even when the model loaded, and the inner `if not history_data`
raises the ValueError unconditionally, so the yesterday-anchor branch of
lines 227 to 230 is unreachable: predict with empty history always fails,
persisted model or not. -/
theorem emptyHistory_fails_even_with_model
    (M : FutureRow → ℚ × ℚ × ℚ) (now : ℤ) (periods : ℤ) (freq : String) :
    predictE M true now { history := [], predict_periods := periods, freq := freq } =
      Except.error PErr.modelUnavailable := rfl

/-- Claim C3 counterexample: under freq H the code formats every returned
ds with strftime %Y-%m-%d, so the two hourly forecast points one and two
hours after the anchor day 9 both serialise to day 9: the returned ds
values are not strictly increasing and do not differ by one hour. -/
theorem hourly_response_ds_not_strictly_increasing :
    predictE M0 false 0 { history := hist10, predict_periods := 2, freq := "H" } =
      Except.ok
        { predictions := [{ ds := 9, yhat := 100, yhat_lower := 90, yhat_upper := 110 },
                          { ds := 9, yhat := 100, yhat_lower := 90, yhat_upper := 110 }]
          predict_periods := 2
          frequency := "H" } ∧
    ¬ (([9, 9] : List ℤ).Pairwise (· < ·)) := by
  refine ⟨rfl, ?_⟩
  decide

/-- Claim C4 counterexample: a raw history whose second record carries no
y key is accepted by _prepare_data, because pandas builds the column set
from the union of record keys: the y column exists thanks to the first
record and the missing cell becomes NaN.  The claim said any record
missing y must raise the ValidationError. -/
theorem record_missing_y_is_accepted :
    prepareData
        [{ ds := some 0, y := some (RawVal.num 5), weather_score := none,
           transport_score := none, foot_traffic_score := none },
         { ds := some 24, y := none, weather_score := none,
           transport_score := none, foot_traffic_score := none }] =
      Except.ok
        [{ ds := some 0, y := some 5, weather_score := 1/2,
           transport_score := 1/2, foot_traffic_score := 1/2 },
         { ds := some 24, y := none, weather_score := 1/2,
           transport_score := 1/2, foot_traffic_score := 1/2 }] ∧
    ({ ds := some 24, y := none, weather_score := none,
       transport_score := none, foot_traffic_score := none } : RawRecord).y = none := by
  exact ⟨rfl, rfl⟩

/-- Claim C5 counterexample: two records sharing ds = 0 with y values 1
and 2 collapse to the single row carrying y = 1, the first occurrence,
because drop_duplicates defaults to keep=first; the claim said the last
occurrence is retained. -/
theorem duplicate_ds_retains_first_occurrence :
    prepareData
        [{ ds := some 0, y := some (RawVal.num 1), weather_score := none,
           transport_score := none, foot_traffic_score := none },
         { ds := some 0, y := some (RawVal.num 2), weather_score := none,
           transport_score := none, foot_traffic_score := none }] =
      Except.ok
        [{ ds := some 0, y := some 1, weather_score := 1/2,
           transport_score := 1/2, foot_traffic_score := 1/2 }] ∧
    (some (1 : ℚ) : Option ℚ) ≠ some 2 := by
  refine ⟨rfl, ?_⟩
  decide

/-- Claim C6 counterexample: with ten valid history rows, predict with
predict_periods = 0 propagates the Prophet rejection of an empty future
frame, and predict_periods = -1 propagates the pandas rejection of a
negative periods count; neither request returns the empty-but-successful
response the claim describes. -/
theorem nonpositive_periods_do_not_succeed :
    predictE M0 false 0 { history := hist10, predict_periods := 0, freq := "D" } =
      Except.error PErr.emptyDataframe ∧
    predictE M0 false 0 { history := hist10, predict_periods := -1, freq := "D" } =
      Except.error PErr.negativePeriods := by
  exact ⟨rfl, rfl⟩

/-- Both clamps of _calculate_confidence land in the advertised band. -/
theorem clamp6592_mem_band (x : ℚ) :
    65/100 ≤ clamp6592 x ∧ clamp6592 x ≤ 92/100 := by
  refine ⟨le_max_left _ _, max_le (by norm_num) (min_le_left _ _)⟩

/-- Claim C7: whatever the forecast, the std value and the random draw,
the normal path of the confidence scorer ends in the clamp to
[0.65, 0.92], and the fallback draw 0.75 + (r - 0.5) * 0.1 with r in
[0, 1) lies in [0.70, 0.80), so every value the scorer can return is
within [0.65, 0.92]. -/
theorem confidence_always_in_band (f : List ForecastRow) (stdev r : ℚ)
    (hr0 : 0 ≤ r) (hr1 : r < 1) :
    (65/100 ≤ calcConfidence f stdev r ∧ calcConfidence f stdev r ≤ 92/100) ∧
    (65/100 ≤ fallbackConfidence r ∧ fallbackConfidence r ≤ 92/100) := by
  constructor
  · exact clamp6592_mem_band _
  · have hval : fallbackConfidence r = 70/100 + r * (1/10) := by
      unfold fallbackConfidence; ring
    constructor
    · rw [hval]; nlinarith
    · rw [hval]; nlinarith

/-- Witness for C7 at a concrete forecast, std and draw. -/
theorem confidence_always_in_band_witness :
    (65/100 ≤ calcConfidence [⟨50, 40, 60⟩] 0 (1/4) ∧
     calcConfidence [⟨50, 40, 60⟩] 0 (1/4) ≤ 92/100) ∧
    (65/100 ≤ fallbackConfidence (1/4) ∧ fallbackConfidence (1/4) ≤ 92/100) :=
  confidence_always_in_band [⟨50, 40, 60⟩] 0 (1/4) (by norm_num) (by norm_num)

/-- Claim C8: in the future frame every row carries the same extrapolated
value per regressor (the code assigns a single scalar to the whole
column); with a prepared history that scalar is the mean of the tail(7)
of the column, which holds exactly the last min(7, available) values; and
with no history at prediction time the scalar is the neutral 0.5. -/
theorem regressors_extrapolated_uniformly (dates : List ℤ)
    (dfh : Option (List Obs)) (df : List Obs) (g : Obs → ℚ) :
    (∀ row ∈ makeFutureFrame dates dfh,
        row.weather_score = extrapolateRegressor dfh (fun o => o.weather_score) ∧
        row.transport_score = extrapolateRegressor dfh (fun o => o.transport_score) ∧
        row.foot_traffic_score = extrapolateRegressor dfh (fun o => o.foot_traffic_score)) ∧
    extrapolateRegressor (some df) g = dmean (lastSeven (df.map g)) ∧
    (lastSeven (df.map g)).length = min 7 df.length ∧
    extrapolateRegressor none g = 1/2 := by
  refine ⟨?_, rfl, ?_, rfl⟩
  · intro row hrow
    rcases List.mem_map.1 hrow with ⟨t, _, rfl⟩
    exact ⟨rfl, rfl, rfl⟩
  · simp only [lastSeven, List.length_drop, List.length_map]
    omega

/-- Witness for C8 on a one-date horizon with no history. -/
theorem regressors_extrapolated_uniformly_witness :
    ({ ds := 24, weather_score := 1/2, transport_score := 1/2,
       foot_traffic_score := 1/2 } : FutureRow).weather_score =
      extrapolateRegressor none (fun o => o.weather_score) :=
  ((regressors_extrapolated_uniformly [24] none [] (fun o => o.weather_score)).1
    _ (by simp [makeFutureFrame, extrapolateRegressor])).1

/-- Every regressor cell of a prepared frame is clipped or defaulted into
the unit interval. -/
theorem regColumn_mem_unit (present : Bool) (v : Option RawVal) :
    0 ≤ regColumn present v ∧ regColumn present v ≤ 1 := by
  unfold regColumn coerceReg clip01
  rcases present with _ | _
  · simp; norm_num
  · rcases v with _ | v
    · simp; norm_num
    · rcases v with q | _
      · simp only [if_pos rfl]
        exact ⟨le_max_left _ _, max_le (by norm_num) (min_le_left _ _)⟩
      · simp; norm_num

/-- Membership survives the keep-first deduplication. -/
theorem mem_of_mem_dedupByDs {o : Obs} : ∀ {l : List Obs},
    o ∈ dedupByDs l → o ∈ l := by
  intro l
  induction l with
  | nil => intro hmem; exact absurd hmem (List.not_mem_nil o)
  | cons r rest ih =>
    intro hmem
    rcases List.mem_cons.1 hmem with hmem | hmem
    · exact hmem ▸ List.mem_cons_self r rest
    · exact List.mem_cons_of_mem r (ih (List.mem_of_mem_filter hmem))

/-- Membership in the sorted frame is membership before sorting. -/
theorem mem_sortByDs {o : Obs} {l : List Obs} :
    o ∈ sortByDs l ↔ o ∈ l :=
  (List.perm_insertionSort _ l).mem_iff

/-- Claim C9: every regressor value of every row of a prepared series
lies in [0, 1], whatever the raw history contained (out-of-range values
are clipped, missing and unparsable ones default to 0.5). -/
theorem prepared_regressors_in_unit_interval (h : List RawRecord)
    (out : List Obs) (hok : prepareData h = Except.ok out) :
    ∀ o ∈ out,
      (0 ≤ o.weather_score ∧ o.weather_score ≤ 1) ∧
      (0 ≤ o.transport_score ∧ o.transport_score ≤ 1) ∧
      (0 ≤ o.foot_traffic_score ∧ o.foot_traffic_score ≤ 1) := by
  intro o ho
  unfold prepareData at hok
  split_ifs at hok
  have hout : sortByDs (dedupByDs (h.map
      (normalizeRecord (colPresent (fun r => r.weather_score) h)
        (colPresent (fun r => r.transport_score) h)
        (colPresent (fun r => r.foot_traffic_score) h)))) = out :=
    Except.ok.inj hok
  rw [← hout] at ho
  have ho2 := mem_of_mem_dedupByDs (mem_sortByDs.1 ho)
  rcases List.mem_map.1 ho2 with ⟨r, _, rfl⟩
  exact ⟨regColumn_mem_unit _ _, regColumn_mem_unit _ _, regColumn_mem_unit _ _⟩

/-- Witness for C9: a history whose weather value 5 is out of range,
whose transport value is unparsable text and whose foot-traffic column is
absent prepares to the single row (1, 0.5, 0.5), inside the unit cube. -/
theorem prepared_regressors_in_unit_interval_witness :
    (0 ≤ (1 : ℚ) ∧ (1 : ℚ) ≤ 1) ∧
    (0 ≤ (1/2 : ℚ) ∧ (1/2 : ℚ) ≤ 1) ∧
    (0 ≤ (1/2 : ℚ) ∧ (1/2 : ℚ) ≤ 1) :=
  prepared_regressors_in_unit_interval
    [{ ds := some 0, y := some (RawVal.num 3), weather_score := some (RawVal.num 5),
       transport_score := some RawVal.text, foot_traffic_score := none }]
    [{ ds := some 0, y := some 3, weather_score := 1,
       transport_score := 1/2, foot_traffic_score := 1/2 }]
    rfl
    { ds := some 0, y := some 3, weather_score := 1,
      transport_score := 1/2, foot_traffic_score := 1/2 }
    (List.mem_singleton.2 rfl)

/-- Claim C4 amended: _prepare_data raises its ValueError exactly when
the frame lacks a ds column or a y column (no record carries the key) or
some y cell is non-numeric text; a record individually missing ds or y
while another record supplies the column is accepted, its missing cells
becoming nulls. -/
theorem validationError_iff_columns_or_nonnumeric (h : List RawRecord) :
    prepareData h = Except.error PErr.validationError ↔
      (hasDsCol h = false ∨ hasYCol h = false ∨
        ∃ r ∈ h, r.y = some RawVal.text) := by
  unfold prepareData
  by_cases hcols : hasDsCol h = true ∧ hasYCol h = true
  · rw [if_neg (not_not_intro hcols)]
    by_cases hall : (h.all fun r => numericOrMissing r.y) = true
    · rw [if_neg (not_not_intro hall)]
      refine iff_of_false (by simp) ?_
      intro hcon
      rcases hcon with hc | hc | ⟨r, hr, hy⟩
      · rw [hcols.1] at hc; exact absurd hc (by simp)
      · rw [hcols.2] at hc; exact absurd hc (by simp)
      · have hnum := List.all_eq_true.1 hall r hr
        rw [hy] at hnum
        exact absurd hnum (by simp [numericOrMissing])
    · rw [if_pos hall]
      refine iff_of_true rfl ?_
      refine Or.inr (Or.inr ?_)
      simp only [List.all_eq_true, not_forall] at hall
      rcases hall with ⟨r, hr, hny⟩
      refine ⟨r, hr, ?_⟩
      rcases hy : r.y with _ | v
      · rw [hy] at hny; exact absurd rfl hny
      · rcases v with q | _
        · rw [hy] at hny; exact absurd rfl hny
        · rfl
  · rw [if_pos hcols]
    refine iff_of_true rfl ?_
    rcases Decidable.not_and_iff_or_not.1 hcols with hc | hc
    · simp only [Bool.not_eq_true] at hc
      exact Or.inl hc
    · simp only [Bool.not_eq_true] at hc
      exact Or.inr (Or.inl hc)

/-- The keep-first deduplication: for any ds value, the rows retained
with that ds are exactly the first such row of the input. -/
theorem dedupByDs_filter_take_one (l : List Obs) (x : Option ℤ) :
    (dedupByDs l).filter (fun o => decide (o.ds = x)) =
      (l.filter fun o => decide (o.ds = x)).take 1 := by
  induction l with
  | nil => rfl
  | cons r rest ih =>
    by_cases hx : r.ds = x
    · have hd : decide (r.ds = x) = true := by simp [hx]
      have hnil : ((dedupByDs rest).filter fun o => o.ds ≠ r.ds).filter
          (fun o => decide (o.ds = x)) = [] := by
        apply List.filter_eq_nil_iff.2
        intro o ho
        have hne := (List.mem_filter.1 ho).2
        simp only [ne_eq, decide_not, Bool.not_eq_eq_eq_not, Bool.not_true,
          decide_eq_false_iff_not] at hne
        simp only [decide_eq_true_eq]
        intro hcon
        exact hne (hcon.trans hx.symm)
      show (r :: ((dedupByDs rest).filter fun o => o.ds ≠ r.ds)).filter
          (fun o => decide (o.ds = x)) =
        ((r :: rest).filter fun o => decide (o.ds = x)).take 1
      simp [List.filter_cons, hd, hnil]
      intro a _ ha
      exact ha.trans hx.symm
    · have hd : decide (r.ds = x) = false := by simp [hx]
      show (r :: ((dedupByDs rest).filter fun o => o.ds ≠ r.ds)).filter
          (fun o => decide (o.ds = x)) =
        ((r :: rest).filter fun o => decide (o.ds = x)).take 1
      rw [List.filter_cons_of_neg (by simp [hx]), List.filter_cons_of_neg (by simp [hx])]
      rw [← ih, List.filter_filter]
      apply List.filter_congr
      intro o ho
      by_cases hox : o.ds = x
      · have hor : ¬ o.ds = r.ds := fun hcon => hx (hcon ▸ hox)
        have hxr : ¬ x = r.ds := fun hcon => hx hcon.symm
        simp [hox, hor, hxr]
      · simp [hox]

/-- The ds values surviving deduplication are pairwise distinct. -/
theorem dedupByDs_ds_pairwise (l : List Obs) :
    ((dedupByDs l).map fun o => o.ds).Pairwise (· ≠ ·) := by
  induction l with
  | nil => exact List.Pairwise.nil
  | cons r rest ih =>
    show ((r :: ((dedupByDs rest).filter fun o => o.ds ≠ r.ds)).map
      fun o => o.ds).Pairwise (· ≠ ·)
    simp only [List.map_cons, List.pairwise_cons]
    constructor
    · intro d hd
      rcases List.mem_map.1 hd with ⟨o, ho, rfl⟩
      have hne := (List.mem_filter.1 ho).2
      simp only [ne_eq, decide_not, Bool.not_eq_eq_eq_not, Bool.not_true,
        decide_eq_false_iff_not] at hne
      exact fun hcon => hne hcon.symm
    · exact List.Pairwise.sublist ((List.filter_sublist _).map _) ih

/-- Sorting permutes the rows, so distinctness of ds values survives. -/
theorem sortByDs_ds_pairwise (m : List Obs)
    (hp : (m.map fun o => o.ds).Pairwise (· ≠ ·)) :
    ((sortByDs m).map fun o => o.ds).Pairwise (· ≠ ·) := by
  have hperm : List.Perm ((sortByDs m).map fun o => o.ds) (m.map fun o => o.ds) :=
    (List.perm_insertionSort _ m).map _
  exact (hperm.pairwise_iff fun hab => hab.symm).2 hp

/-- Claim C5 amended: after preparation no two rows share a ds (every
group of input rows with equal ds collapses to one row), and the row
retained for each ds value is the first occurrence encountered before
sorting, pandas drop_duplicates defaulting to keep=first. -/
theorem duplicates_collapse_keeping_first (h : List RawRecord)
    (out : List Obs) (hok : prepareData h = Except.ok out) :
    ((out.map fun o => o.ds).Pairwise (· ≠ ·)) ∧
    ∀ (l : List Obs) (x : Option ℤ),
      (dedupByDs l).filter (fun o => decide (o.ds = x)) =
        (l.filter fun o => decide (o.ds = x)).take 1 := by
  refine ⟨?_, dedupByDs_filter_take_one⟩
  unfold prepareData at hok
  split_ifs at hok
  have hout : sortByDs (dedupByDs (h.map
      (normalizeRecord (colPresent (fun r => r.weather_score) h)
        (colPresent (fun r => r.transport_score) h)
        (colPresent (fun r => r.foot_traffic_score) h)))) = out :=
    Except.ok.inj hok
  rw [← hout]
  exact sortByDs_ds_pairwise _ (dedupByDs_ds_pairwise _)

/-- Witness for C5 at the two-record duplicate history. -/
theorem duplicates_collapse_keeping_first_witness :
    ((([{ ds := some 0, y := some 1, weather_score := 1/2,
          transport_score := 1/2, foot_traffic_score := 1/2 }] :
        List Obs).map fun o => o.ds).Pairwise (· ≠ ·)) ∧
    ∀ (l : List Obs) (x : Option ℤ),
      (dedupByDs l).filter (fun o => decide (o.ds = x)) =
        (l.filter fun o => decide (o.ds = x)).take 1 :=
  duplicates_collapse_keeping_first
    [{ ds := some 0, y := some (RawVal.num 1), weather_score := none,
       transport_score := none, foot_traffic_score := none },
     { ds := some 0, y := some (RawVal.num 2), weather_score := none,
       transport_score := none, foot_traffic_score := none }]
    [{ ds := some 0, y := some 1, weather_score := 1/2,
       transport_score := 1/2, foot_traffic_score := 1/2 }]
    rfl

/-- Claim C10: the confidence score is not a function of the forecast
alone.  On the fixed two-point forecast with yhat 100 and interval 85 to
115 (whose yhat column has sample variance 0, so std is exactly 0), the
random draws 0 and one half produce the distinct confidences 0.88 and
0.90, and the two draws are both legal values of random.random(); the
fallback draw likewise changes the fallback value. -/
theorem confidence_depends_on_random_draw :
    calcConfidence [⟨100, 85, 115⟩, ⟨100, 85, 115⟩] 0 0 ≠
      calcConfidence [⟨100, 85, 115⟩, ⟨100, 85, 115⟩] 0 (1/2) ∧
    (0 : ℚ) * 0 = sampleVar (([⟨100, 85, 115⟩, ⟨100, 85, 115⟩] :
      List ForecastRow).map fun p => p.yhat) ∧
    ((0 : ℚ) ≤ 0 ∧ (0 : ℚ) < 1) ∧ ((0 : ℚ) ≤ 1/2 ∧ (1/2 : ℚ) < 1) ∧
    fallbackConfidence 0 ≠ fallbackConfidence (1/2) := by
  refine ⟨?_, ?_, ⟨by norm_num, by norm_num⟩, ⟨by norm_num, by norm_num⟩, ?_⟩
  · norm_num [calcConfidence, clamp6592, dmean, diffs]
  · norm_num [sampleVar, dmean]
  · norm_num [fallbackConfidence]

/-- Binding reduction for the Except monad used by the service. -/
theorem ok_bind {α β : Type} (a : α) (f : α → Except PErr β) :
    (Except.ok a >>= f : Except PErr β) = f a := rfl

/-- The day number shifts by exactly one per 24-hour step, whatever the
anchor. -/
theorem dayOf_anchor_shift (A k : ℤ) :
    dayOf (A + 24 + 24 * k) = A / 24 + (1 + k) := by
  unfold dayOf
  rw [show A + 24 + 24 * k = A + (1 + k) * 24 by ring]
  rw [Int.fdiv_eq_ediv _ (by norm_num)]
  rw [Int.add_mul_ediv_right _ _ (by norm_num : (24:ℤ) ≠ 0)]

/-- Claim C3 amended: for a history preparing to at least 10 rows and
N at least 1, predict succeeds and returns exactly N forecast points whose
underlying timestamps start one frequency unit after the last historical
timestamp and advance by one unit per point; the serialised ds values are
the calendar days of those timestamps, which under freq D are strictly
increasing, while under freq H points within one day share the ds value
(the original strict-increase reading fails, see the counterexample). -/
theorem forecast_horizon_shape (M : FutureRow → ℚ × ℚ × ℚ) (now : ℤ)
    (h : List RawRecord) (df : List Obs) (N : ℤ) (freq : String)
    (hne : h ≠ []) (hprep : prepareData h = Except.ok df)
    (hlen : 10 ≤ df.length) (hN : 1 ≤ N) :
    predictE M false now { history := h, predict_periods := N, freq := freq } =
      Except.ok
        { predictions := (List.range N.toNat).map fun (i : ℕ) =>
            (fun t =>
              { ds := dayOf t, yhat := (M (futureRowFor df t)).1,
                yhat_lower := (M (futureRowFor df t)).2.1,
                yhat_upper := (M (futureRowFor df t)).2.2 : ForecastPoint })
              (maxDs df + freqStep freq + freqStep freq * (i : ℤ))
          predict_periods := N
          frequency := freq } ∧
    ((N.toNat : ℤ) = N) ∧
    (freq = "D" →
      ((List.range N.toNat).map fun (i : ℕ) =>
        dayOf (maxDs df + 24 + 24 * (i : ℤ))).Pairwise (· < ·)) := by
  have hie : h.isEmpty = false := by
    cases h with
    | nil => exact absurd rfl hne
    | cons a l => rfl
  have h10 : ¬ (df.length < 10) := by omega
  have hneg : ¬ (N < 0) := by omega
  have hnn : N.toNat ≠ 0 := by omega
  rcases Nat.exists_eq_succ_of_ne_zero hnn with ⟨n, hn⟩
  refine ⟨?_, by omega, ?_⟩
  · have hma : modelAcquisition false true = ModelStep.retrained := rfl
    have htc : trainCheck h = Except.ok () := by
      simp only [trainCheck, hprep, h10, if_false]
    unfold predictE
    simp only [hie, Bool.not_false, hma, htc, hprep, dateRange, hneg, if_false,
      Bool.false_eq_true, if_true, hn, List.range_succ_eq_map, List.map_map,
      makeFutureFrame, prophetPredict, List.isEmpty_cons, futureRowFor, ok_bind,
      List.map_cons]
    rfl
  · intro hD
    subst hD
    have base := List.pairwise_lt_range N.toNat
    refine base.map _ ?_
    intro a b hab
    rw [dayOf_anchor_shift, dayOf_anchor_shift]
    omega

/-- Witness for C3 on the ten-row daily history with three periods: the
day-formatted ds values are strictly increasing under freq D. -/
theorem forecast_horizon_shape_witness :
    ((List.range (3:ℤ).toNat).map fun (i : ℕ) =>
      dayOf (maxDs prepared10 + 24 + 24 * (i : ℤ))).Pairwise (· < ·) :=
  (forecast_horizon_shape M0 0 hist10 prepared10 3 "D" (by simp [hist10]) rfl
    (by decide) (by decide)).2.2 rfl

/-- Short-circuiting of the service pipeline: a failing continuation makes
the whole bind fail. -/
theorem exists_error_bind {α β : Type} (x : Except PErr α)
    (f : α → Except PErr β) (hf : ∀ a, ∃ e, f a = Except.error e) :
    ∃ e, (x >>= f) = Except.error e := by
  cases x with
  | error e => exact ⟨e, rfl⟩
  | ok a => exact hf a

/-- Claim C6 amended: a predict request with predict_periods at most 0
never returns a response: a negative count is rejected by the date-range
construction and a zero count produces an empty future frame that the
model predict call rejects, so the request fails (whatever the model, the
persisted state, the clock and the rest of the request). -/
theorem nonpositive_periods_always_error (M : FutureRow → ℚ × ℚ × ℚ)
    (modelExists : Bool) (now : ℤ) (req : PredictRequest)
    (hN : req.predict_periods ≤ 0) :
    ∃ e, predictE M modelExists now req = Except.error e := by
  unfold predictE
  apply exists_error_bind
  intro u
  apply exists_error_bind
  intro dfh
  rcases lt_or_eq_of_le hN with hlt | heq
  · simp only [dateRange, if_pos hlt]
    exact ⟨PErr.negativePeriods, rfl⟩
  · rw [heq]
    exact ⟨PErr.emptyDataframe, rfl⟩

/-- Witness for C6 at the valid ten-row history with zero periods. -/
theorem nonpositive_periods_always_error_witness :
    ∃ e, predictE M0 false 0
      { history := hist10, predict_periods := 0, freq := "D" } =
        Except.error e :=
  nonpositive_periods_always_error M0 false 0
    { history := hist10, predict_periods := 0, freq := "D" } (by decide)
